import Mathlib

/-!
Shallow embedding of the ssfs webhook router (src/index.js).

JavaScript numbers are modelled as rationals (ℚ); the quota arithmetic in the
source only adds, subtracts, multiplies and divides small values.  Optional /
possibly-absent JS fields are modelled as `Option`.  The external Firestore
collection is a function from document id to an optional document, together
with two failure flags modelling a throwing `get()` / `update()`.  Calls that
the source observes only by their effects (store reads and writes, the blob
save, the HTTP response, the downstream notification) are recorded in an
event trace in execution order.
-/

namespace SSFS

/-- Credit cost per lead (src/index.js line 6: `serviceCostPerLead = 2`). -/
def serviceCostPerLead : ℚ := 2

/-- Service name constant (src/index.js line 8). -/
def serviceName : String := "ssfs-ethan-oct16"

/-- Bucket name constant (src/index.js line 7). -/
def bucketName : String := "ssfs-bucket"

/-- A document of the `subscriptions` collection: the fields the source
reads (`quota`, `ssfs_account_api_key`). The api-key field may be absent. -/
structure DocData where
  quota : ℚ
  ssfs_account_api_key : Option String
deriving DecidableEq, Repr

/-- The external Firestore `subscriptions` collection, plus flags saying
whether `get()` / `update()` throw (modelling `StoreFailure`). -/
structure FStore where
  docs : String → Option DocData
  getFails : Bool
  updateFails : Bool

/-- `doc.get()`: throws when `getFails`, otherwise returns the document
(`none` models `doc.exists == false`). -/
def FStore.get (s : FStore) (k : String) : Except Unit (Option DocData) :=
  if s.getFails then .error () else .ok (s.docs k)

/-- The store after `quotaDoc.update({ quota: q })` on document `k`: the
`quota` field of that document is set to `q`, all other documents are
untouched. -/
def debitedStore (s : FStore) (k : String) (q : ℚ) : FStore :=
  { s with docs := fun x =>
      if x = k then (s.docs k).map (fun d => { d with quota := q }) else s.docs x }

/-- `quotaDoc.update({ quota: q })`: throws when `updateFails`, otherwise
sets the `quota` field of the document at `k`. -/
def FStore.update (s : FStore) (k : String) (q : ℚ) : Except Unit FStore :=
  if s.updateFails then .error () else .ok (debitedStore s k q)

/-- JS truthiness test `!v` for a possibly-absent string: `undefined` and the
empty string are falsy. -/
def jsFalsyStr : Option String → Bool
  | none => true
  | some s => s == ""

/-- The messages the quota decisions and responses carry, with their numeric
payloads (the `Quota exceeded` message of src/index.js line 164 reports the
requested lead count and `data.quota / serviceCostPerLead`). -/
inductive QMessage
  | subscriptionIdRequired
  | atLeastOneObject
  | idNotFound
  | success
  | quotaExceeded (objectCount : Nat) (affordable : ℚ)
  | internalServerError
deriving DecidableEq, Repr

/-- The object literal returned by `checkQuota`; every field other than
`message` may be absent in the source, so each is an `Option`. -/
structure QuotaDecision where
  message : QMessage
  allowed : Option Bool
  usedQuota : Option ℚ
  remainingQuota : Option ℚ
deriving DecidableEq, Repr

/-- HTTP responses the handler can send. -/
inductive Resp
  | r401 (error : String)
  | r403 (m : QMessage)
  | r201
  | r500
deriving DecidableEq, Repr

/-- Observable external effects, in execution order. -/
inductive Event
  | storeRead
  | storeWrite (q : ℚ)
  | blobWrite (filename : String)
  | respSent (r : Resp)
  | notifySent
deriving DecidableEq, Repr

/-- `checkQuota(subscriptionId, objectData)` (src/index.js lines 125-170).
Returns the decision object, the store after the call, and the trace of
store accesses it performed.  `objectData = none` models an absent array:
`objectData.length` then throws a TypeError which the function's own
`catch` converts to `Internal Server Error`, exactly like a store error. -/
def checkQuota (store : FStore) (subscriptionId : Option String)
    (objectData : Option (List Unit)) : QuotaDecision × FStore × List Event :=
  if jsFalsyStr subscriptionId then
    (⟨.subscriptionIdRequired, none, none, none⟩, store, [])
  else
    match objectData with
    | none => (⟨.internalServerError, some false, none, none⟩, store, [])
    | some objs =>
      let objectCount := objs.length
      if objectCount < 1 then
        (⟨.atLeastOneObject, some false, none, none⟩, store, [])
      else
        match store.get (subscriptionId.getD "") with
        | .error _ =>
          (⟨.internalServerError, some false, none, none⟩, store, [.storeRead])
        | .ok none => (⟨.idNotFound, some false, none, none⟩, store, [.storeRead])
        | .ok (some data) =>
          let creditsNeeded : ℚ := (objectCount : ℚ) * serviceCostPerLead
          if data.quota > creditsNeeded then
            let updatedQuota := data.quota - creditsNeeded
            match store.update (subscriptionId.getD "") updatedQuota with
            | .error _ =>
              (⟨.internalServerError, some false, none, none⟩, store, [.storeRead])
            | .ok store1 =>
              (⟨.success, some true, some creditsNeeded, some updatedQuota⟩,
                store1, [.storeRead, .storeWrite updatedQuota])
          else
            (⟨.quotaExceeded objectCount (data.quota / serviceCostPerLead),
                some false, none, some data.quota⟩, store, [.storeRead])

/-- The JS value `getUserApiKey` resolves to: a key string, the
`{ message: ..., allowed: false }` / `{ message: ... }` object literals, or the
boolean `false` (returned when the key field is absent or the store throws). -/
inductive ApiKeyResult
  | key (k : String)
  | notFoundObj
  | sidRequiredObj
  | boolFalse
deriving DecidableEq, Repr

/-- JS template-literal stringification of a `getUserApiKey` result, as in
the comparison `authHeader !== ` + backtick-`${userApiKey}` (line 48):
objects stringify to `[object Object]`, the boolean `false` to `"false"`. -/
def jsTemplateApiKey : ApiKeyResult → String
  | .key k => k
  | .notFoundObj => "[object Object]"
  | .sidRequiredObj => "[object Object]"
  | .boolFalse => "false"

/-- `getUserApiKey(subscriptionId)` (src/index.js lines 178-209), together
with the store reads it performs.  A throwing `get()` is caught and yields
`false`; reads never mutate the store. -/
def getUserApiKey (store : FStore) (subscriptionId : Option String) :
    ApiKeyResult × List Event :=
  if jsFalsyStr subscriptionId then (.sidRequiredObj, [])
  else
    match store.get (subscriptionId.getD "") with
    | .error _ => (.boolFalse, [.storeRead])
    | .ok none => (.notFoundObj, [.storeRead])
    | .ok (some data) =>
      match data.ssfs_account_api_key with
      | some k => (.key k, [.storeRead])
      | none => (.boolFalse, [.storeRead])

/-- `context.subscription.munchkinId` fields of the request body. -/
structure Subscription where
  munchkinId : Option String

/-- `context` of the request body; `subscription` may be absent. -/
structure Ctx where
  subscription : Option Subscription

/-- The request body fields the handler reads; `context` and `objectData`
may be absent from the JSON. -/
structure ReqBody where
  context : Option Ctx
  objectData : Option (List Unit)

/-- An inbound request: the `x-api-key` header (possibly absent) and body. -/
structure Req where
  xApiKey : Option String
  body : ReqBody

/-- `context.subscription.munchkinId` (src/index.js line 39): throws a
TypeError when `context` or `context.subscription` is absent; the
`munchkinId` field itself may be absent without throwing. -/
def getMunchkinId (b : ReqBody) : Except Unit (Option String) :=
  match b.context with
  | none => .error ()
  | some c =>
    match c.subscription with
    | none => .error ()
    | some s => .ok s.munchkinId

/-- Outcome of `authMiddleware` short of the thrown case: a 401 rejection,
or `next()` was invoked. -/
inductive AuthResult
  | rejected (error : String)
  | proceed
deriving DecidableEq, Repr

/-- `authMiddleware` (src/index.js lines 33-53): extracts the Munchkin id
(which can throw, line 39), resolves the stored key (one store read), then
checks the `x-api-key` header for presence and for equality with the
template-stringified lookup result. -/
def authMiddleware (store : FStore) (req : Req) :
    Except Unit (AuthResult × List Event) :=
  match getMunchkinId req.body with
  | .error e => .error e
  | .ok munchkinId =>
    let uak := getUserApiKey store munchkinId
    if jsFalsyStr req.xApiKey then
      .ok (.rejected "Authorization header missing", uak.2)
    else if req.xApiKey.getD "" ≠ jsTemplateApiKey uak.1 then
      .ok (.rejected "Invalid credentials", uak.2)
    else .ok (.proceed, uak.2)

/-- Configuration of external collaborators for one invocation: whether the
blob save throws, whether the downstream `axios.post` throws, and the value
of `Date.now()`. -/
structure Config where
  saveFails : Bool
  notifyFails : Bool
  now : Nat

/-- The object key of the stored artifact (src/index.js line 81); an absent
`munchkinId` interpolates as the string `undefined`. -/
def mkFilename (munchkinId : Option String) (now : Nat) : String :=
  serviceName ++ "/" ++ munchkinId.getD "undefined" ++ "/data-" ++ toString now ++ ".json"

/-- Result of one handler invocation: the store after the call, the blob
keys written, the caller-visible response, and the event trace.  The HTTP
response channel is write-once: once a response has been flushed to the
caller a later `res.status(...).send(...)` cannot alter it, so `resp` is
the first response sent. -/
structure HandlerResult where
  store : FStore
  blobs : List String
  resp : Option Resp
  trace : List Event

/-- `exports.submitAsyncAction` (src/index.js lines 55-116): the outer
try/catch around `authMiddleware` and the `next()` body that checks quota,
saves the artifact, sends the 201 ack, and then posts the notification.
A thrown munchkin-id extraction or blob save reaches the catch before any
response was sent, so the catch's 500 is caller-visible; a thrown
notification reaches the catch after the 201 ack, so its 500 attempt
cannot alter the already-sent response. -/
def submitAsyncAction (cfg : Config) (store : FStore) (req : Req) : HandlerResult :=
  match authMiddleware store req with
  | .error _ => ⟨store, [], some .r500, [.respSent .r500]⟩
  | .ok (.rejected e, authEvents) =>
    ⟨store, [], some (.r401 e), authEvents ++ [.respSent (.r401 e)]⟩
  | .ok (.proceed, authEvents) =>
    match getMunchkinId req.body with
    | .error _ => ⟨store, [], some .r500, authEvents ++ [.respSent .r500]⟩
    | .ok munchkinId =>
      let cq := checkQuota store munchkinId req.body.objectData
      if cq.1.allowed ≠ some true then
        ⟨cq.2.1, [], some (.r403 cq.1.message),
          authEvents ++ cq.2.2 ++ [.respSent (.r403 cq.1.message)]⟩
      else
        let fname := mkFilename munchkinId cfg.now
        if cfg.saveFails then
          ⟨cq.2.1, [], some .r500, authEvents ++ cq.2.2 ++ [.respSent .r500]⟩
        else if cfg.notifyFails then
          ⟨cq.2.1, [fname], some .r201,
            authEvents ++ cq.2.2 ++ [.blobWrite fname, .respSent .r201]⟩
        else
          ⟨cq.2.1, [fname], some .r201,
            authEvents ++ cq.2.2 ++ [.blobWrite fname, .respSent .r201, .notifySent]⟩

/-- A one-account store fixture used by concrete witnesses. -/
def accountM1 (q : ℚ) (k : Option String) : FStore :=
  ⟨fun x => if x = "M1" then some ⟨q, k⟩ else none, false, false⟩

/-- A store whose `get()` always throws, used by concrete witnesses. -/
def failingStore : FStore := ⟨fun _ => none, true, false⟩

/-- The read half of `checkQuota`'s debit: the `doc.get()` of
src/index.js line 142, performed without any guard or transaction. -/
def debitRead (store : FStore) (sid : String) : Except Unit (Option DocData) :=
  store.get sid

/-- The decide-and-write half of `checkQuota`'s debit (src/index.js lines
151-154): the strict comparison against the previously read quota followed
by the plain `quotaDoc.update(...)` of the computed difference. -/
def debitWrite (store : FStore) (sid : String) (quotaRead : ℚ) (objectCount : Nat) :
    Bool × FStore :=
  let creditsNeeded : ℚ := (objectCount : ℚ) * serviceCostPerLead
  if quotaRead > creditsNeeded then
    match store.update sid (quotaRead - creditsNeeded) with
    | .error _ => (false, store)
    | .ok s1 => (true, s1)
  else (false, store)

/-- Two concurrent invocations of `checkQuota`'s read-decide-write debit
against the same account, interleaved read / read / write / write: each
invocation performs exactly the unguarded `doc.get()` followed by
`quotaDoc.update(...)` of the source, with both reads scheduled before
either write.  Returns whether each debit succeeded and the final store. -/
def interleavedDebits (store : FStore) (sid : String) (nA nB : Nat) :
    Bool × Bool × FStore :=
  match debitRead store sid, debitRead store sid with
  | .ok (some dA), .ok (some dB) =>
    let (okA, s1) := debitWrite store sid dA.quota nA
    let (okB, s2) := debitWrite s1 sid dB.quota nB
    (okA, okB, s2)
  | _, _ => (false, false, store)

theorem getUserApiKey_events (store : FStore) (sid : Option String) :
    ∀ e ∈ (getUserApiKey store sid).2, e = Event.storeRead := by
  intro e he
  unfold getUserApiKey at he
  split at he
  · simp at he
  · split at he
    · simp_all
    · simp_all
    · split at he <;> simp_all

theorem checkQuota_events (store : FStore) (sid : Option String)
    (od : Option (List Unit)) :
    ∀ e ∈ (checkQuota store sid od).2.2,
      e = Event.storeRead ∨ ∃ q, e = Event.storeWrite q := by
  intro e he
  unfold checkQuota at he
  dsimp only at he
  repeat' split at he
  all_goals aesop

/-- C1: for an account with stored quota `Q` and a batch of size `n ≥ 1`,
`checkQuota` allows iff `Q > n * costPerUnit` (strict), and on an allowed
request it writes the account quota as `Q - n * costPerUnit` and returns
`usedQuota = n * costPerUnit` and `remainingQuota` equal to the post-debit
value. -/
theorem checkQuota_strict_debit (store : FStore) (sid : String) (l : List Unit)
    (data : DocData) (hsid : sid ≠ "") (hg : store.getFails = false)
    (hu : store.updateFails = false) (hdoc : store.docs sid = some data)
    (hn : 1 ≤ l.length) :
    ((checkQuota store (some sid) (some l)).1.allowed = some true ↔
      data.quota > (l.length : ℚ) * serviceCostPerLead) ∧
    (data.quota > (l.length : ℚ) * serviceCostPerLead →
      (checkQuota store (some sid) (some l)).1 =
        ⟨.success, some true, some ((l.length : ℚ) * serviceCostPerLead),
          some (data.quota - (l.length : ℚ) * serviceCostPerLead)⟩ ∧
      (checkQuota store (some sid) (some l)).2.1.docs sid =
        some ⟨data.quota - (l.length : ℚ) * serviceCostPerLead,
          data.ssfs_account_api_key⟩) := by
  have hfal : ¬ (jsFalsyStr (some sid) = true) := by simp [jsFalsyStr, hsid]
  have hget : store.get sid = Except.ok (some data) := by simp [FStore.get, hg, hdoc]
  have hlen : ¬ l.length < 1 := by omega
  by_cases hq : data.quota > (l.length : ℚ) * serviceCostPerLead
  · have hupd : store.update sid (data.quota - (l.length : ℚ) * serviceCostPerLead) =
        Except.ok (debitedStore store sid
          (data.quota - (l.length : ℚ) * serviceCostPerLead)) := by
      simp [FStore.update, hu]
    have hred : checkQuota store (some sid) (some l) =
        (⟨.success, some true, some ((l.length : ℚ) * serviceCostPerLead),
            some (data.quota - (l.length : ℚ) * serviceCostPerLead)⟩,
          debitedStore store sid (data.quota - (l.length : ℚ) * serviceCostPerLead),
          [.storeRead, .storeWrite (data.quota - (l.length : ℚ) * serviceCostPerLead)]) := by
      unfold checkQuota
      rw [if_neg hfal]
      dsimp only
      rw [if_neg hlen]
      dsimp only [Option.getD_some]
      rw [hget]
      dsimp only
      rw [if_pos hq, hupd]
    refine ⟨?_, fun _ => ⟨by rw [hred], ?_⟩⟩
    · rw [hred]
      simpa using hq
    · rw [hred]
      simp [debitedStore, hdoc]
  · have hred : checkQuota store (some sid) (some l) =
        (⟨.quotaExceeded l.length (data.quota / serviceCostPerLead), some false, none,
            some data.quota⟩, store, [.storeRead]) := by
      unfold checkQuota
      rw [if_neg hfal]
      dsimp only
      rw [if_neg hlen]
      dsimp only [Option.getD_some]
      rw [hget]
      dsimp only
      rw [if_neg hq]
    refine ⟨?_, fun h => absurd h hq⟩
    rw [hred]
    simp [hq]

/-- C3: for an account with stored quota `Q ≤ n * costPerUnit`, `checkQuota`
denies with a message reporting that only `Q / costPerUnit` units could be
afforded and `remainingQuota = Q`, and the store is left unchanged. -/
theorem checkQuota_denial_no_debit (store : FStore) (sid : String) (l : List Unit)
    (data : DocData) (hsid : sid ≠ "") (hg : store.getFails = false)
    (hdoc : store.docs sid = some data) (hn : 1 ≤ l.length)
    (hq : data.quota ≤ (l.length : ℚ) * serviceCostPerLead) :
    (checkQuota store (some sid) (some l)).1 =
      ⟨.quotaExceeded l.length (data.quota / serviceCostPerLead), some false, none,
        some data.quota⟩ ∧
    (checkQuota store (some sid) (some l)).2.1 = store := by
  have hfal : ¬ (jsFalsyStr (some sid) = true) := by simp [jsFalsyStr, hsid]
  have hget : store.get sid = Except.ok (some data) := by simp [FStore.get, hg, hdoc]
  have hlen : ¬ l.length < 1 := by omega
  have hq' : ¬ data.quota > (l.length : ℚ) * serviceCostPerLead := not_lt.mpr hq
  have hred : checkQuota store (some sid) (some l) =
      (⟨.quotaExceeded l.length (data.quota / serviceCostPerLead), some false, none,
          some data.quota⟩, store, [.storeRead]) := by
    unfold checkQuota
    rw [if_neg hfal]
    dsimp only
    rw [if_neg hlen]
    dsimp only [Option.getD_some]
    rw [hget]
    dsimp only
    rw [if_neg hq']
  exact ⟨by rw [hred], by rw [hred]⟩

/-- C6: every quota value `checkQuota` writes is strictly positive, and a
document whose quota is non-negative still has a non-negative quota after
any `checkQuota` call. -/
theorem checkQuota_quota_stays_positive (store : FStore) (sid : Option String)
    (od : Option (List Unit)) :
    (∀ q, Event.storeWrite q ∈ (checkQuota store sid od).2.2 → 0 < q) ∧
    (∀ k d, store.docs k = some d → 0 ≤ d.quota →
      ∀ d1, (checkQuota store sid od).2.1.docs k = some d1 → 0 ≤ d1.quota) := by
  constructor
  · intro q hq
    unfold checkQuota at hq
    dsimp only at hq
    repeat' split at hq
    all_goals simp_all
  · intro k d hdk hdq d1 h1
    unfold checkQuota at h1
    dsimp only at h1
    repeat' split at h1
    all_goals dsimp only at h1
    all_goals try (rw [hdk, Option.some.injEq] at h1; subst h1; exact hdq)
    rename_i hfal2 od2 objs hlen2 xg data hget hcmp xu store1 hupd
    unfold FStore.update at hupd
    split at hupd
    · exact absurd hupd (by simp)
    · rw [Except.ok.injEq] at hupd
      subst hupd
      unfold debitedStore at h1
      dsimp only at h1
      split at h1
      · unfold FStore.get at hget
        split at hget
        · exact absurd hget (by simp)
        · rw [Except.ok.injEq] at hget
          rw [hget] at h1
          simp only [Option.map_some'] at h1
          rw [Option.some.injEq] at h1
          subst h1
          have : (0 : ℚ) < data.quota - (objs.length : ℚ) * serviceCostPerLead :=
            sub_pos.mpr hcmp
          exact le_of_lt this
      · rw [hdk, Option.some.injEq] at h1
        subst h1
        exact hdq

/-- C7: a throwing store `get()` and a throwing store `update()` are both
caught inside `checkQuota` and converted to the decision
`allowed: false, message: Internal Server Error`, with the store left
unchanged; `checkQuota` never propagates a store exception. -/
theorem checkQuota_store_error_contained (store : FStore) (sid : String)
    (l : List Unit) (hsid : sid ≠ "") (hl : l ≠ []) :
    (store.getFails = true →
      checkQuota store (some sid) (some l) =
        (⟨.internalServerError, some false, none, none⟩, store, [.storeRead])) ∧
    (∀ data, store.getFails = false → store.updateFails = true →
      store.docs sid = some data →
      data.quota > (l.length : ℚ) * serviceCostPerLead →
      checkQuota store (some sid) (some l) =
        (⟨.internalServerError, some false, none, none⟩, store, [.storeRead])) := by
  have hfal : ¬ (jsFalsyStr (some sid) = true) := by simp [jsFalsyStr, hsid]
  have hlen : ¬ l.length < 1 := by
    have := List.length_pos.mpr hl
    omega
  constructor
  · intro hg
    have hget : store.get sid = Except.error () := by simp [FStore.get, hg]
    unfold checkQuota
    rw [if_neg hfal]
    dsimp only
    rw [if_neg hlen]
    dsimp only [Option.getD_some]
    rw [hget]
  · intro data hg hu hdoc hq
    have hget : store.get sid = Except.ok (some data) := by simp [FStore.get, hg, hdoc]
    have hupd : store.update sid (data.quota - (l.length : ℚ) * serviceCostPerLead) =
        Except.error () := by simp [FStore.update, hu]
    unfold checkQuota
    rw [if_neg hfal]
    dsimp only
    rw [if_neg hlen]
    dsimp only [Option.getD_some]
    rw [hget]
    dsimp only
    rw [if_pos hq, hupd]

/-- C8 counterexample: when the account identifier is absent, the decision
returned by `checkQuota` has no `allowed` field at all (src/index.js line
129 returns only `{ message: 'subscriptionId is required' }`), so its
`allowed` field is not `false`. -/
theorem checkQuota_missing_id_allowed_absent :
    (checkQuota (accountM1 10 (some "K")) none (some [()])).1.allowed ≠ some false := by
  decide

/-- C8 (amended): with an empty/absent account identifier `checkQuota`
fails fast returning a decision whose `allowed` field is absent; with a
batch of size `< 1` it fails fast with `allowed: false` and the
"at least one object" message; in all three cases no store read or write
is performed, the store is unchanged, and the empty-batch rejection is
independent of the account's quota balance. -/
theorem checkQuota_fail_fast (store : FStore) (od : Option (List Unit))
    (sid : String) (hsid : sid ≠ "") :
    checkQuota store none od = (⟨.subscriptionIdRequired, none, none, none⟩, store, []) ∧
    checkQuota store (some "") od =
      (⟨.subscriptionIdRequired, none, none, none⟩, store, []) ∧
    checkQuota store (some sid) (some []) =
      (⟨.atLeastOneObject, some false, none, none⟩, store, []) := by
  have hfal : ¬ (jsFalsyStr (some sid) = true) := by simp [jsFalsyStr, hsid]
  refine ⟨?_, ?_, ?_⟩
  · simp [checkQuota, jsFalsyStr]
  · simp [checkQuota, jsFalsyStr]
  · unfold checkQuota
    rw [if_neg hfal]
    dsimp only
    rw [if_pos (by decide : ([] : List Unit).length < 1)]

/-- C2 (code-bug evidence): for an account whose record stores no API key,
`getUserApiKey` returns the boolean `false`, and the auth comparison at
src/index.js line 48 template-stringifies it; presenting the literal
header value "false" therefore authenticates, and the request proceeds to
a 201 with a quota debit (10 becomes 8) instead of being rejected 401. -/
theorem auth_accepts_stringified_false_sentinel :
    (submitAsyncAction ⟨false, false, 0⟩ (accountM1 10 none)
        ⟨some "false", ⟨some ⟨some ⟨some "M1"⟩⟩, some [()]⟩⟩).resp = some Resp.r201 ∧
    (submitAsyncAction ⟨false, false, 0⟩ (accountM1 10 none)
        ⟨some "false", ⟨some ⟨some ⟨some "M1"⟩⟩, some [()]⟩⟩).store.docs "M1" =
      some ⟨8, none⟩ := by
  constructor <;>
    norm_num +decide [submitAsyncAction, authMiddleware, getMunchkinId, getUserApiKey,
      checkQuota, jsFalsyStr, jsTemplateApiKey, FStore.get, FStore.update,
      debitedStore, accountM1, serviceCostPerLead, mkFilename]

/-- C4: when the munchkin id extraction succeeds but authentication rejects
the request (missing or mismatching `x-api-key`), the handler responds 401
and performs no quota debit, no blob write and no downstream notification:
the store is returned unchanged and the trace holds no write events. -/
theorem rejected_auth_no_side_effects (cfg : Config) (store : FStore) (req : Req)
    (munchkinId : Option String) (hm : getMunchkinId req.body = .ok munchkinId)
    (hrej : jsFalsyStr req.xApiKey = true ∨
      req.xApiKey.getD "" ≠ jsTemplateApiKey (getUserApiKey store munchkinId).1) :
    (submitAsyncAction cfg store req).store = store ∧
    (submitAsyncAction cfg store req).blobs = [] ∧
    (∃ e, (submitAsyncAction cfg store req).resp = some (.r401 e)) ∧
    (∀ q, Event.storeWrite q ∉ (submitAsyncAction cfg store req).trace) ∧
    (∀ f, Event.blobWrite f ∉ (submitAsyncAction cfg store req).trace) ∧
    Event.notifySent ∉ (submitAsyncAction cfg store req).trace := by
  have hevs := getUserApiKey_events store munchkinId
  have hauth : ∃ e, authMiddleware store req =
      .ok (.rejected e, (getUserApiKey store munchkinId).2) := by
    unfold authMiddleware
    rw [hm]
    dsimp only
    by_cases hf : jsFalsyStr req.xApiKey = true
    · exact ⟨_, by rw [if_pos hf]⟩
    · have hne : req.xApiKey.getD "" ≠ jsTemplateApiKey (getUserApiKey store munchkinId).1 := by
        rcases hrej with h | h
        · exact absurd h hf
        · exact h
      exact ⟨_, by rw [if_neg hf, if_pos hne]⟩
  obtain ⟨e, hauth⟩ := hauth
  unfold submitAsyncAction
  rw [hauth]
  dsimp only
  refine ⟨rfl, rfl, ⟨e, rfl⟩, ?_, ?_, ?_⟩
  · intro q hmem
    rcases List.mem_append.mp hmem with h | h
    · have := hevs _ h
      simp at this
    · simp at h
  · intro f hmem
    rcases List.mem_append.mp hmem with h | h
    · have := hevs _ h
      simp at this
    · simp at h
  · intro hmem
    rcases List.mem_append.mp hmem with h | h
    · have := hevs _ h
      simp at this
    · simp at h

/-- C5: on an accepted request the caller-visible response is the 201 ack,
the ack appears in the trace strictly before any downstream notification,
no 500 is ever visible, and this holds whether or not the notification
fails — a notification failure after the ack cannot alter the response. -/
theorem ack_precedes_notification (cfg : Config) (store : FStore) (req : Req)
    (munchkinId : Option String) (hm : getMunchkinId req.body = .ok munchkinId)
    (hh : jsFalsyStr req.xApiKey = false)
    (ha : req.xApiKey.getD "" = jsTemplateApiKey (getUserApiKey store munchkinId).1)
    (hq : (checkQuota store munchkinId req.body.objectData).1.allowed = some true)
    (hs : cfg.saveFails = false) :
    (submitAsyncAction cfg store req).resp = some Resp.r201 ∧
    Event.respSent Resp.r500 ∉ (submitAsyncAction cfg store req).trace ∧
    ∃ pre, Event.notifySent ∉ pre ∧
      (submitAsyncAction cfg store req).trace =
        pre ++ [Event.blobWrite (mkFilename munchkinId cfg.now), Event.respSent Resp.r201] ++
          (if cfg.notifyFails then [] else [Event.notifySent]) := by
  have hevs := getUserApiKey_events store munchkinId
  have hqevs := checkQuota_events store munchkinId req.body.objectData
  have hauth : authMiddleware store req = .ok (.proceed, (getUserApiKey store munchkinId).2) := by
    unfold authMiddleware
    rw [hm]
    dsimp only
    rw [if_neg (by simp [hh]), if_neg (by simp [ha])]
  have hpre : Event.notifySent ∉
      (getUserApiKey store munchkinId).2 ++
        (checkQuota store munchkinId req.body.objectData).2.2 := by
    intro hmem
    rcases List.mem_append.mp hmem with h | h
    · have := hevs _ h
      simp at this
    · rcases hqevs _ h with h' | ⟨q, h'⟩ <;> simp at h'
  have h500 : Event.respSent Resp.r500 ∉
      (getUserApiKey store munchkinId).2 ++
        (checkQuota store munchkinId req.body.objectData).2.2 := by
    intro hmem
    rcases List.mem_append.mp hmem with h | h
    · have := hevs _ h
      simp at this
    · rcases hqevs _ h with h' | ⟨q, h'⟩ <;> simp at h'
  unfold submitAsyncAction
  rw [hauth]
  dsimp only
  rw [hm]
  dsimp only
  rw [if_neg (by simp [hq]), if_neg (by simp [hs])]
  cases hnf : cfg.notifyFails
  · rw [if_neg (by simp [hnf])]
    refine ⟨rfl, ?_, (getUserApiKey store munchkinId).2 ++
      (checkQuota store munchkinId req.body.objectData).2.2, hpre, ?_⟩
    · intro hmem
      rcases List.mem_append.mp hmem with h | h
      · exact h500 h
      · simp at h
    · simp [hnf, List.append_assoc]
  · rw [if_pos (by simp [hnf])]
    refine ⟨rfl, ?_, (getUserApiKey store munchkinId).2 ++
      (checkQuota store munchkinId req.body.objectData).2.2, hpre, ?_⟩
    · intro hmem
      rcases List.mem_append.mp hmem with h | h
      · exact h500 h
      · simp at h
    · simp [hnf, List.append_assoc]

/-- C9 (code-bug evidence): the source's read-decide-write debit is an
unguarded `get()` followed by `update()`, so in the read/read/write/write
interleaving of two debits against account "M1" with quota 10, each of
batch size 3 (6 credits each, 12 jointly, exceeding the quota), both
debits succeed and the final stored quota is 4: one debit is lost, and
"never both succeed when their combined cost exceeds Q" is violated. -/
theorem unguarded_debit_lost_update :
    (interleavedDebits (accountM1 10 (some "K")) "M1" 3 3).1 = true ∧
    (interleavedDebits (accountM1 10 (some "K")) "M1" 3 3).2.1 = true ∧
    ((interleavedDebits (accountM1 10 (some "K")) "M1" 3 3).2.2.docs "M1").map
      DocData.quota = some 4 ∧
    (3 : ℚ) * serviceCostPerLead + 3 * serviceCostPerLead > 10 := by
  refine ⟨?_, ?_, ?_, ?_⟩ <;>
    norm_num +decide [interleavedDebits, debitRead, debitWrite, FStore.get, FStore.update,
      debitedStore, accountM1, serviceCostPerLead]

/-- C10: when the request body lacks `context` or `context.subscription`,
the handler throws while extracting the account id (src/index.js line 39)
before the `x-api-key` header is examined, and the caller receives a 500
for any header value, including a missing one; nothing else happens. -/
theorem missing_subscription_yields_500 (cfg : Config) (store : FStore) (req : Req)
    (h : req.body.context = none ∨
      ∃ c, req.body.context = some c ∧ c.subscription = none) :
    submitAsyncAction cfg store req =
      ⟨store, [], some .r500, [.respSent .r500]⟩ := by
  have hm : getMunchkinId req.body = .error () := by
    unfold getMunchkinId
    rcases h with h | ⟨c, hc, hs⟩
    · rw [h]
    · rw [hc]
      dsimp only
      rw [hs]
  have hauth : authMiddleware store req = .error () := by
    unfold authMiddleware
    rw [hm]
  unfold submitAsyncAction
  rw [hauth]

/-- C1 witness: account "M1" with quota 10, batch of 3 leads (6 credits):
the debit is allowed. -/
theorem checkQuota_strict_debit_witness :
    (checkQuota (accountM1 10 (some "K")) (some "M1") (some [(), (), ()])).1.allowed =
      some true := by
  have h := checkQuota_strict_debit (accountM1 10 (some "K")) "M1" [(), (), ()]
    ⟨10, some "K"⟩ (by decide) rfl rfl (by simp [accountM1]) (by decide)
  exact h.1.mpr (by norm_num [serviceCostPerLead])

/-- C3 witness: account "M1" with quota 4, batch of 3 leads (6 credits
needed): denial reporting 2 affordable leads, quota left at 4, store
untouched. -/
theorem checkQuota_denial_no_debit_witness :
    (checkQuota (accountM1 4 none) (some "M1") (some [(), (), ()])).1 =
      ⟨.quotaExceeded 3 2, some false, none, some 4⟩ ∧
    (checkQuota (accountM1 4 none) (some "M1") (some [(), (), ()])).2.1 =
      accountM1 4 none := by
  have h := checkQuota_denial_no_debit (accountM1 4 none) "M1" [(), (), ()] ⟨4, none⟩
    (by decide) rfl (by simp [accountM1]) (by decide) (by norm_num [serviceCostPerLead])
  exact ⟨h.1.trans (by norm_num [serviceCostPerLead]), h.2⟩

/-- C4 witness: a request with no `x-api-key` header against account "M1"
is rejected with a 401 and leaves the store and blob list untouched. -/
theorem rejected_auth_no_side_effects_witness :
    (submitAsyncAction ⟨false, false, 0⟩ (accountM1 10 (some "K"))
        ⟨none, ⟨some ⟨some ⟨some "M1"⟩⟩, some [()]⟩⟩).store = accountM1 10 (some "K") ∧
    (submitAsyncAction ⟨false, false, 0⟩ (accountM1 10 (some "K"))
        ⟨none, ⟨some ⟨some ⟨some "M1"⟩⟩, some [()]⟩⟩).blobs = [] ∧
    ∃ e, (submitAsyncAction ⟨false, false, 0⟩ (accountM1 10 (some "K"))
        ⟨none, ⟨some ⟨some ⟨some "M1"⟩⟩, some [()]⟩⟩).resp = some (.r401 e) := by
  have h := rejected_auth_no_side_effects ⟨false, false, 0⟩ (accountM1 10 (some "K"))
    ⟨none, ⟨some ⟨some ⟨some "M1"⟩⟩, some [()]⟩⟩ (some "M1") rfl (Or.inl rfl)
  exact ⟨h.1, h.2.1, h.2.2.1⟩

/-- C5 witness: an accepted request against account "M1" whose downstream
notification fails still answers 201 to the caller. -/
theorem ack_precedes_notification_witness :
    (submitAsyncAction ⟨false, true, 0⟩ (accountM1 10 (some "K"))
        ⟨some "K", ⟨some ⟨some ⟨some "M1"⟩⟩, some [()]⟩⟩).resp = some Resp.r201 := by
  have h := ack_precedes_notification ⟨false, true, 0⟩ (accountM1 10 (some "K"))
    ⟨some "K", ⟨some ⟨some ⟨some "M1"⟩⟩, some [()]⟩⟩ (some "M1") rfl rfl
    (by norm_num +decide [getUserApiKey, jsFalsyStr, jsTemplateApiKey, FStore.get, accountM1])
    (by norm_num +decide [checkQuota, jsFalsyStr, FStore.get, FStore.update, debitedStore,
      accountM1, serviceCostPerLead])
    rfl
  exact h.1

/-- C6 witness: debiting account "M1" (quota 10) by one lead writes the
value 8, which is strictly positive. -/
theorem checkQuota_quota_stays_positive_witness :
    Event.storeWrite 8 ∈
      (checkQuota (accountM1 10 (some "K")) (some "M1") (some [()])).2.2 ∧ (0 : ℚ) < 8 := by
  have hmem : Event.storeWrite 8 ∈
      (checkQuota (accountM1 10 (some "K")) (some "M1") (some [()])).2.2 := by
    norm_num +decide [checkQuota, jsFalsyStr, FStore.get, FStore.update, debitedStore,
      accountM1, serviceCostPerLead]
  exact ⟨hmem,
    (checkQuota_quota_stays_positive (accountM1 10 (some "K")) (some "M1")
      (some [()])).1 8 hmem⟩

/-- C7 witness: a store whose `get()` throws yields the contained
`Internal Server Error` decision with the store unchanged. -/
theorem checkQuota_store_error_contained_witness :
    checkQuota failingStore (some "M1") (some [()]) =
      (⟨.internalServerError, some false, none, none⟩, failingStore, [.storeRead]) :=
  (checkQuota_store_error_contained failingStore "M1" [()] (by decide) (by decide)).1 rfl

/-- C8 witness: an empty `objectData` batch against account "M1" is
rejected with the "at least one object" decision without touching the
store, independent of the quota balance of 10. -/
theorem checkQuota_fail_fast_witness :
    checkQuota (accountM1 10 (some "K")) (some "M1") (some []) =
      (⟨.atLeastOneObject, some false, none, none⟩, accountM1 10 (some "K"), []) :=
  (checkQuota_fail_fast (accountM1 10 (some "K")) none "M1" (by decide)).2.2

/-- C10 witness: a body with no `context` at all and no credential header
produces a 500 and nothing else, not a 401. -/
theorem missing_subscription_yields_500_witness :
    submitAsyncAction ⟨false, false, 0⟩ (accountM1 10 (some "K")) ⟨none, ⟨none, some [()]⟩⟩ =
      ⟨accountM1 10 (some "K"), [], some .r500, [.respSent .r500]⟩ :=
  missing_subscription_yields_500 ⟨false, false, 0⟩ (accountM1 10 (some "K"))
    ⟨none, ⟨none, some [()]⟩⟩ (Or.inl rfl)

end SSFS
